import Mathlib

/-!
Shallow embedding of the student-assistant front end: the chat
orchestration state (ChatInterface.jsx), the attendance aggregation
computed by the fast-path attendance fetch, the attendance and fee
presentation logic of the Attendance/Dashboard/Profile/Fees pages, and
the relevant slice of the API layer (api.js).  JavaScript numbers that
carry exact monetary or percentage values are modelled as rationals;
counts are natural numbers; optional JSON fields are `Option`.
-/

namespace ChatApp

/-- Per-course attendance record as delivered by GET /student/attendance. -/
structure AttendanceRecord where
  course_id : String
  course_name : String
  attended : Nat
  total_classes : Nat
  percentage : ℚ
deriving Repr, DecidableEq

/-- Chat message.  `sources`, `actions` and `attendanceData` are optional
JSON fields (absent = `none`), mirroring the ad-hoc object shapes built in
ChatInterface.jsx. -/
structure Message where
  role : String
  content : String
  sources : Option (List String) := none
  actions : Option (List String) := none
  attendanceData : Option (List AttendanceRecord) := none
deriving Repr, DecidableEq

/-- Client-side state of the chat component plus the session token prop:
`messages` is the transcript, `input` the text box, `loading` the busy
flag (true = a request is in flight). -/
structure ChatState where
  token : Option String
  messages : List Message
  input : String
  loading : Bool
deriving Repr, DecidableEq

/-- Request issued to the backend by the chat component: either a chat
POST carrying a message list, or the attendance GET. -/
inductive ApiRequest where
  | chat (messages : List Message)
  | attendance
deriving Repr, DecidableEq

/-- Decoded body of a /chat response; every field is optional, as the
code guards each with a JavaScript or-default. -/
structure ChatResponseData where
  reply : Option String
  sources : Option (List String)
  actions : Option (List String)
deriving Repr, DecidableEq

/-- Outcome of the awaited fetch in sendMessage: either a decoded
response (the code never inspects the HTTP status, so it is carried but
unused) or a transport-level failure that lands in the catch block. -/
inductive ChatOutcome where
  | response (status : Nat) (data : ChatResponseData)
  | networkError
deriving Repr, DecidableEq

/-- JavaScript `String.prototype.trim`: strip whitespace characters from
both ends of the string. -/
def jsTrim (s : String) : String :=
  String.mk (((s.data.dropWhile Char.isWhitespace).reverse.dropWhile
    Char.isWhitespace).reverse)

/-- JavaScript string-or-default: `v || fallback` where the empty string
is falsy. -/
def jsStringOr (v : Option String) (fallback : String) : String :=
  match v with
  | none => fallback
  | some s => if s = "" then fallback else s

/-- Fallback reply used in sendMessage when `data.reply` is falsy. -/
def chatFallbackReply : String := "Sorry, I could not process your request."

/-- Fixed error text appended by the catch block of sendMessage. -/
def chatNetworkErrorMessage : String := "Error: Could not connect to the server."

/-- Fixed text appended when the attendance response has no records. -/
def noAttendanceMessage : String := "No attendance records found for your courses."

/-- Front half of sendMessage (ChatInterface.jsx lines 151-169): empty
trimmed text returns immediately; otherwise the user message is appended,
the input box cleared, the busy flag set, and a chat request is issued
carrying the previous transcript plus the new user message. -/
def sendMessageStart (st : ChatState) (text : String) : ChatState × Option ApiRequest :=
  if jsTrim text = "" then (st, none)
  else
    let userMessage : Message := { role := "user", content := text }
    ({ st with messages := st.messages ++ [userMessage], input := "", loading := true },
     some (ApiRequest.chat (st.messages ++ [userMessage])))

/-- Assistant message built from a decoded /chat response
(ChatInterface.jsx lines 173-181). -/
def chatAssistantMessage (data : ChatResponseData) : Message :=
  { role := "assistant"
    content := jsStringOr data.reply chatFallbackReply
    sources := some (data.sources.getD [])
    actions := some (data.actions.getD []) }

/-- Success continuation of sendMessage: append the assistant message and
clear the busy flag (the finally block). -/
def handleChatSuccess (st : ChatState) (data : ChatResponseData) : ChatState :=
  { st with messages := st.messages ++ [chatAssistantMessage data], loading := false }

/-- Catch branch of sendMessage: append the fixed connection-error
message and clear the busy flag. -/
def handleChatFailure (st : ChatState) : ChatState :=
  { st with
    messages := st.messages ++ [{ role := "assistant", content := chatNetworkErrorMessage }]
    loading := false }

/-- Completion of an in-flight chat request.  The HTTP status is ignored:
the source never reads `response.ok` or `response.status`, so any decoded
response goes through the success path. -/
def sendMessageComplete (st : ChatState) (outcome : ChatOutcome) : ChatState :=
  match outcome with
  | ChatOutcome.response _ data => handleChatSuccess st data
  | ChatOutcome.networkError => handleChatFailure st

/-- Front half of fetchAttendance (lines 58-61): the canned user message
is appended unconditionally, the busy flag set, and the attendance GET
issued.  There is no guard of any kind here. -/
def fetchAttendanceStart (st : ChatState) : ChatState × Option ApiRequest :=
  let userMessage : Message := { role := "user", content := "Show my attendance" }
  ({ st with messages := st.messages ++ [userMessage], loading := true },
   some ApiRequest.attendance)

/-- Suggested prompt entry of the quick-action grid. -/
structure SuggestedPrompt where
  icon : String
  text : String
  color : String
  action : String
deriving Repr, DecidableEq

/-- handlePromptClick (lines 196-202): dispatch on the prompt's action
tag; no busy-flag check is performed. -/
def handlePromptClick (st : ChatState) (prompt : SuggestedPrompt) :
    ChatState × Option ApiRequest :=
  if prompt.action = "attendance" then fetchAttendanceStart st
  else sendMessageStart st prompt.text

/-- Condition under which the submit control accepts a submission: the
input element and the submit button carry
`disabled = loading or not input.trim()` (lines 484 and 489), so a form
submission can only be dispatched when the busy flag is clear and the
trimmed input is non-empty. -/
def submitEnabled (st : ChatState) : Bool :=
  !st.loading && !(jsTrim st.input == "")

/-- Submission as reachable through the UI: the disabled submit control
drops the event, otherwise handleSubmit calls sendMessage(input). -/
def guardedSubmit (st : ChatState) : ChatState × Option ApiRequest :=
  if submitEnabled st then sendMessageStart st st.input else (st, none)

/-- Visibility of the suggested-prompt grid: it is rendered only while
`messages.length === 0` (line 270). -/
def promptsShown (st : ChatState) : Bool :=
  st.messages.length == 0

/-- JavaScript `toFixed(1)` on a non-negative number, as an exact
rational: round to the nearest tenth, ties away from zero. -/
def jsToFixed1 (q : ℚ) : ℚ :=
  ((Int.floor (q * 10 + 1 / 2) : ℤ) : ℚ) / 10

/-- Aggregate quantities computed inside fetchAttendance. -/
structure AttendanceStats where
  overallPercentage : ℚ
  totalAttended : Nat
  totalClasses : Nat
  lowAttendanceCourses : List AttendanceRecord
deriving Repr, DecidableEq

/-- Attendance aggregation from fetchAttendance (lines 76-89 and 113):
totals by reduce, overall percentage `(attended/total*100).toFixed(1)`
when any class exists and 0 otherwise, and the strict `< 75` filter for
the low-attendance list. -/
def aggregateAttendance (records : List AttendanceRecord) : AttendanceStats :=
  let totalClasses : Nat := records.foldl (fun sum r => sum + r.total_classes) 0
  let totalAttended : Nat := records.foldl (fun sum r => sum + r.attended) 0
  let overallPercentage : ℚ :=
    if 0 < totalClasses then
      jsToFixed1 ((totalAttended : ℚ) / (totalClasses : ℚ) * 100)
    else 0
  let lowAttendance := records.filter (fun r => decide (r.percentage < 75))
  { overallPercentage := overallPercentage
    totalAttended := totalAttended
    totalClasses := totalClasses
    lowAttendanceCourses := lowAttendance }

/-- Per-record status marker of the chat attendance report (line 100). -/
def attendanceStatusIcon (r : AttendanceRecord) : String :=
  if r.percentage >= 75 then "✅" else "⚠️"

/-- Per-row status badge of the attendance page and the profile course
table (`percentage >= 75 ? Good : Low`). -/
def attendanceRowStatus (r : AttendanceRecord) : String :=
  if r.percentage >= 75 then "✅ Good" else "⚠️ Low"

/-- Average attendance shown by DashboardPage (lines 192-196) and
ProfilePage (lines 39-43): unweighted mean of the percentage fields when
the list is present and non-empty, 0 otherwise. -/
def avgAttendance (attendance : Option (List AttendanceRecord)) : ℚ :=
  match attendance with
  | some records =>
    if 0 < records.length then
      records.foldl (fun sum r => sum + r.percentage) 0 / (records.length : ℚ)
    else 0
  | none => 0

/-- Fee record as consumed by the fee views. -/
structure FeeStatus where
  total : ℚ
  paid : ℚ
  due : ℚ
  status : String
deriving Repr, DecidableEq

/-- ProfilePage paid-in-full branch condition (`fees?.due === 0`,
line 174). -/
def profileFeePaidInFull (fees : FeeStatus) : Bool :=
  decide (fees.due = 0)

/-- FeesPage paid condition
(`fees?.due === 0 || fees?.status === "Paid"`). -/
def feesPageIsPaid (fees : FeeStatus) : Bool :=
  decide (fees.due = 0) || decide (fees.status = "Paid")

/-- JavaScript `q || 0` on a number: 0 is falsy, everything else truthy. -/
def jsOrZero (q : ℚ) : ℚ :=
  if q = 0 then 0 else q

/-- Outstanding amount rendered in the not-paid branch
(`fees?.due || 0`). -/
def displayedOutstanding (fees : FeeStatus) : ℚ :=
  jsOrZero fees.due

/-- Sample record at exactly 75 percent (30 of 40 classes). -/
def sampleRecordC1 : AttendanceRecord :=
  { course_id := "C1", course_name := "Course 1", attended := 30,
    total_classes := 40, percentage := 75 }

/-- Sample record at 50 percent (10 of 20 classes). -/
def sampleRecordC2 : AttendanceRecord :=
  { course_id := "C2", course_name := "Course 2", attended := 10,
    total_classes := 20, percentage := 50 }

/-- Idle chat state with an empty transcript. -/
def sampleState : ChatState :=
  { token := some "t", messages := [], input := "", loading := false }

/-- Chat state with a request in flight. -/
def sampleSendingState : ChatState :=
  { token := some "t", messages := [], input := "hi", loading := true }

/-- Folding addition of a projection over a list equals the initial
accumulator plus the sum of the mapped list. -/
theorem foldl_add_map_sum {α M : Type} [AddCommMonoid M] (f : α → M) :
    ∀ (l : List α) (n : M), l.foldl (fun sum x => sum + f x) n = n + (l.map f).sum := by
  intro l
  induction l with
  | nil => intro n; simp
  | cons a t ih => intro n; simp [List.foldl_cons, ih, add_assoc]

/-- Total attended classes computed by the aggregator is the sum of the
attended fields. -/
theorem aggregateAttendance_totalAttended (records : List AttendanceRecord) :
    (aggregateAttendance records).totalAttended =
      (records.map (fun r => r.attended)).sum := by
  simp [aggregateAttendance, foldl_add_map_sum]

/-- Total classes computed by the aggregator is the sum of the
total-classes fields. -/
theorem aggregateAttendance_totalClasses (records : List AttendanceRecord) :
    (aggregateAttendance records).totalClasses =
      (records.map (fun r => r.total_classes)).sum := by
  simp [aggregateAttendance, foldl_add_map_sum]

/-- Closed form of the overall-percentage field of the aggregator. -/
theorem aggregateAttendance_overall (records : List AttendanceRecord) :
    (aggregateAttendance records).overallPercentage =
      if 0 < (aggregateAttendance records).totalClasses then
        jsToFixed1 (((aggregateAttendance records).totalAttended : ℚ) /
          ((aggregateAttendance records).totalClasses : ℚ) * 100)
      else 0 := rfl

/-- Rounding a non-negative value to one decimal stays non-negative. -/
theorem jsToFixed1_nonneg (q : ℚ) (hq : 0 ≤ q) : 0 ≤ jsToFixed1 q := by
  have h1 : (0 : ℚ) ≤ q * 10 + 1 / 2 := by linarith
  have h2 : (0 : ℤ) ≤ Int.floor (q * 10 + 1 / 2) := Int.floor_nonneg.mpr h1
  have h3 : (0 : ℚ) ≤ ((Int.floor (q * 10 + 1 / 2) : ℤ) : ℚ) := by exact_mod_cast h2
  rw [jsToFixed1]
  exact div_nonneg h3 (by norm_num)

/-- Rounding a value at most 100 to one decimal keeps it at most 100. -/
theorem jsToFixed1_le_100 (q : ℚ) (hq : q ≤ 100) : jsToFixed1 q ≤ 100 := by
  have h1 : q * 10 + 1 / 2 < ((1001 : ℤ) : ℚ) := by push_cast; linarith
  have h2 : Int.floor (q * 10 + 1 / 2) < 1001 := Int.floor_lt.mpr h1
  have h2' : Int.floor (q * 10 + 1 / 2) ≤ 1000 := by omega
  have h3 : ((Int.floor (q * 10 + 1 / 2) : ℤ) : ℚ) ≤ 1000 := by exact_mod_cast h2'
  rw [jsToFixed1]
  linarith

/-- Floor computation behind the 66.7 percent scenario value. -/
theorem floor_sample_667 : Int.floor ((40 : ℚ) / 60 * 100 * 10 + 1 / 2) = 667 := by
  rw [Int.floor_eq_iff]
  constructor <;> norm_num

/-- Aggregation of the two-course scenario input: 40 of 60 classes,
overall percentage 66.7 (667/10), one low-attendance course. -/
theorem aggregateAttendance_sample :
    aggregateAttendance [sampleRecordC1, sampleRecordC2] =
      { overallPercentage := 667 / 10, totalAttended := 40, totalClasses := 60,
        lowAttendanceCourses := [sampleRecordC2] } := by
  simp [aggregateAttendance, sampleRecordC1, sampleRecordC2, jsToFixed1, floor_sample_667]
  norm_num

/-- Unweighted mean of the two-course scenario input is 62.5 (125/2). -/
theorem avgAttendance_sample :
    avgAttendance (some [sampleRecordC1, sampleRecordC2]) = 125 / 2 := by
  simp [avgAttendance, sampleRecordC1, sampleRecordC2]
  norm_num

/-- Claim C3: for every sequence of attendance records, the set of
courses classified as low attendance is exactly the records whose
percentage is strictly less than 75, and a record at exactly 75.0 is
classified as satisfactory (not low) both by the aggregator and by the
per-row status badge. -/
theorem lowAttendance_iff_below_75 (records : List AttendanceRecord) (r : AttendanceRecord) :
    (r ∈ (aggregateAttendance records).lowAttendanceCourses ↔
      r ∈ records ∧ r.percentage < 75) ∧
    (r.percentage = 75 →
      r ∉ (aggregateAttendance records).lowAttendanceCourses ∧
      attendanceRowStatus r = "✅ Good" ∧ attendanceStatusIcon r = "✅") := by
  constructor
  · simp [aggregateAttendance, List.mem_filter]
  · intro h75
    refine ⟨?_, ?_, ?_⟩
    · simp [aggregateAttendance, List.mem_filter, h75]
    · simp [attendanceRowStatus, h75]
    · simp [attendanceStatusIcon, h75]

/-- Witness for claim C3: the 75.0-percent sample record is not in the
low-attendance list of the scenario input and its badge reads Good. -/
theorem lowAttendance_iff_below_75_witness :
    sampleRecordC1 ∉
      (aggregateAttendance [sampleRecordC1, sampleRecordC2]).lowAttendanceCourses ∧
    attendanceRowStatus sampleRecordC1 = "✅ Good" := by
  have h := (lowAttendance_iff_below_75 [sampleRecordC1, sampleRecordC2]
    sampleRecordC1).2 rfl
  exact ⟨h.1, h.2.1⟩

/-- Claim C4: the aggregator returns the sum of attended, the sum of
total classes, the overall percentage 100 x attended / total rounded to
one decimal when any class exists and 0 otherwise; on the scenario input
(30/40 at 75.0 and 10/20 at 50.0) it yields overall percentage 66.7
(667/10), 40 attended, 60 total, and only the second course low. -/
theorem aggregateAttendance_totals_and_scenario (records : List AttendanceRecord) :
    (aggregateAttendance records).totalAttended =
      (records.map (fun r => r.attended)).sum ∧
    (aggregateAttendance records).totalClasses =
      (records.map (fun r => r.total_classes)).sum ∧
    (aggregateAttendance records).overallPercentage =
      (if 0 < (records.map (fun r => r.total_classes)).sum then
        jsToFixed1 (100 * ((((records.map (fun r => r.attended)).sum : ℕ)) : ℚ) /
          ((((records.map (fun r => r.total_classes)).sum : ℕ)) : ℚ))
      else 0) ∧
    aggregateAttendance [sampleRecordC1, sampleRecordC2] =
      { overallPercentage := 667 / 10, totalAttended := 40, totalClasses := 60,
        lowAttendanceCourses := [sampleRecordC2] } := by
  refine ⟨aggregateAttendance_totalAttended records,
    aggregateAttendance_totalClasses records, ?_, aggregateAttendance_sample⟩
  rw [aggregateAttendance_overall, aggregateAttendance_totalAttended,
    aggregateAttendance_totalClasses]
  by_cases hpos : 0 < (records.map (fun r => r.total_classes)).sum
  · rw [if_pos hpos, if_pos hpos]
    have hcomm : ∀ a c : ℚ, a / c * 100 = 100 * a / c := by intro a c; ring
    rw [hcomm]
  · rw [if_neg hpos, if_neg hpos]

/-- Claim C5: whenever every record satisfies attended at most total
classes, the aggregated overall percentage lies in the closed interval
from 0 to 100, and it is 0 when the total class count is 0. -/
theorem overallPercentage_in_range (records : List AttendanceRecord)
    (h : ∀ r ∈ records, r.attended ≤ r.total_classes) :
    0 ≤ (aggregateAttendance records).overallPercentage ∧
    (aggregateAttendance records).overallPercentage ≤ 100 ∧
    ((aggregateAttendance records).totalClasses = 0 →
      (aggregateAttendance records).overallPercentage = 0) := by
  have hA := aggregateAttendance_totalAttended records
  have hC := aggregateAttendance_totalClasses records
  have hsum : (records.map (fun r => r.attended)).sum ≤
      (records.map (fun r => r.total_classes)).sum :=
    List.sum_le_sum h
  rw [aggregateAttendance_overall]
  by_cases hpos : 0 < (aggregateAttendance records).totalClasses
  · rw [if_pos hpos]
    have hC0 : (0 : ℚ) < ((aggregateAttendance records).totalClasses : ℚ) := by
      exact_mod_cast hpos
    have hle : ((aggregateAttendance records).totalAttended : ℚ) ≤
        ((aggregateAttendance records).totalClasses : ℚ) := by
      rw [hA, hC]; exact_mod_cast hsum
    have hq0 : 0 ≤ ((aggregateAttendance records).totalAttended : ℚ) /
        ((aggregateAttendance records).totalClasses : ℚ) * 100 := by positivity
    have hd : ((aggregateAttendance records).totalAttended : ℚ) /
        ((aggregateAttendance records).totalClasses : ℚ) ≤ 1 :=
      (div_le_one hC0).mpr hle
    have hq100 : ((aggregateAttendance records).totalAttended : ℚ) /
        ((aggregateAttendance records).totalClasses : ℚ) * 100 ≤ 100 := by nlinarith
    refine ⟨jsToFixed1_nonneg _ hq0, jsToFixed1_le_100 _ hq100, ?_⟩
    intro h0
    omega
  · rw [if_neg hpos]
    exact ⟨le_refl 0, by norm_num, fun _ => rfl⟩

/-- Witness for claim C5: the singleton 30-of-40 input satisfies the
invariant and its overall percentage is between 0 and 100. -/
theorem overallPercentage_in_range_witness :
    (∀ r ∈ [sampleRecordC1], r.attended ≤ r.total_classes) ∧
    0 ≤ (aggregateAttendance [sampleRecordC1]).overallPercentage ∧
    (aggregateAttendance [sampleRecordC1]).overallPercentage ≤ 100 := by
  have h := overallPercentage_in_range [sampleRecordC1] (by decide)
  exact ⟨by decide, h.1, h.2.1⟩

/-- Claim C1 counterexample: in a state with a request in flight
(loading true), directly submitting a message or clicking the
attendance prompt is not a no-op: sendMessage and handlePromptClick
contain no in-flight check, so the transcript grows and a second
request is issued. -/
theorem sendMessage_while_sending_appends :
    sampleSendingState.loading = true ∧
    (sendMessageStart sampleSendingState "hello").1.messages.length =
      sampleSendingState.messages.length + 1 ∧
    (sendMessageStart sampleSendingState "hello").2 ≠ none ∧
    (handlePromptClick sampleSendingState
        { icon := "📊", text := "Show my attendance",
          color := "from-indigo-500 to-violet-600",
          action := "attendance" }).1.messages.length =
      sampleSendingState.messages.length + 1 ∧
    (handlePromptClick sampleSendingState
        { icon := "📊", text := "Show my attendance",
          color := "from-indigo-500 to-violet-600",
          action := "attendance" }).2 ≠ none := by decide

/-- Claim C1 (amended): while a request is in flight the view layer
disables the input field and the submit button, so a submission
dispatched through the UI is a no-op (state unchanged, no request), and
any state in which sendMessage or fetchAttendance just issued a request
has a non-empty transcript, so the suggested-prompt grid (rendered only
for an empty transcript) is not shown; the sendMessage function itself
performs no in-flight check. -/
theorem guarded_submit_while_sending_noop (st : ChatState) (h : st.loading = true) :
    guardedSubmit st = (st, none) ∧
    (guardedSubmit st).1.messages.length = st.messages.length ∧
    (∀ text, (sendMessageStart st text).2 ≠ none →
      promptsShown (sendMessageStart st text).1 = false) ∧
    promptsShown (fetchAttendanceStart st).1 = false := by
  have hg : guardedSubmit st = (st, none) := by
    simp [guardedSubmit, submitEnabled, h]
  refine ⟨hg, by rw [hg], ?_, ?_⟩
  · intro text hreq
    by_cases ht : jsTrim text = ""
    · simp [sendMessageStart, ht] at hreq
    · simp [sendMessageStart, ht, promptsShown]
  · simp [fetchAttendanceStart, promptsShown]

/-- Witness for claim C1 (amended): in the sample in-flight state the
guarded submission leaves the state unchanged and issues nothing. -/
theorem guarded_submit_while_sending_noop_witness :
    guardedSubmit sampleSendingState = (sampleSendingState, none) :=
  (guarded_submit_while_sending_noop sampleSendingState rfl).1

/-- Claim C2 counterexample: completing a chat call with an HTTP 401
response neither clears the token nor empties the transcript; the
handler ignores the status, appends the fallback assistant message, and
leaves the token in place. -/
theorem chat_401_leaves_token_and_transcript :
    (sendMessageComplete
        { token := some "abc",
          messages := [{ role := "user", content := "hi" }],
          input := "", loading := true }
        (ChatOutcome.response 401
          { reply := none, sources := none, actions := none })).token = some "abc" ∧
    (sendMessageComplete
        { token := some "abc",
          messages := [{ role := "user", content := "hi" }],
          input := "", loading := true }
        (ChatOutcome.response 401
          { reply := none, sources := none, actions := none })).messages.length = 2 := by
  constructor <;> rfl

/-- Claim C2 (amended): receiving a 401 on the chat call does not clear
the session token and does not empty the transcript; the response is
handled like any other decoded body, one assistant message is appended
and the token is untouched. -/
theorem chat_response_401_preserves_session (st : ChatState) (status : Nat)
    (data : ChatResponseData) (h : status = 401) :
    (sendMessageComplete st (ChatOutcome.response status data)).token = st.token ∧
    (sendMessageComplete st (ChatOutcome.response status data)).messages.length =
      st.messages.length + 1 ∧
    (sendMessageComplete st (ChatOutcome.response status data)).messages ≠ [] := by
  subst h
  refine ⟨rfl, by simp [sendMessageComplete, handleChatSuccess], ?_⟩
  simp [sendMessageComplete, handleChatSuccess]

/-- Witness for claim C2 (amended): the 401 completion on the sample
in-flight state keeps the token. -/
theorem chat_response_401_preserves_session_witness :
    (sendMessageComplete sampleSendingState
        (ChatOutcome.response 401
          { reply := none, sources := none, actions := none })).token =
      sampleSendingState.token :=
  (chat_response_401_preserves_session sampleSendingState 401
    { reply := none, sources := none, actions := none } rfl).1

/-- Claim C6: a successful chat completion appends exactly one
assistant message whose content is the reply text, or the fixed
placeholder when the reply is empty or absent, with sources and actions
defaulting to the empty sequence, and clears the busy flag; in
particular reply Hello with no sources or actions appends exactly the
assistant message Hello with empty sources and actions. -/
theorem chat_success_appends_reply (st : ChatState) (data : ChatResponseData) :
    (handleChatSuccess st data).messages = st.messages ++ [chatAssistantMessage data] ∧
    (handleChatSuccess st data).messages.length = st.messages.length + 1 ∧
    (handleChatSuccess st data).loading = false ∧
    (chatAssistantMessage data).role = "assistant" ∧
    (∀ s, data.reply = some s → s ≠ "" → (chatAssistantMessage data).content = s) ∧
    ((data.reply = none ∨ data.reply = some "") →
      (chatAssistantMessage data).content = chatFallbackReply) ∧
    (chatAssistantMessage data).sources = some (data.sources.getD []) ∧
    (chatAssistantMessage data).actions = some (data.actions.getD []) ∧
    handleChatSuccess st { reply := some "Hello", sources := none, actions := none } =
      { st with
        messages := st.messages ++
          [{ role := "assistant", content := "Hello",
             sources := some [], actions := some [] }],
        loading := false } := by
  refine ⟨rfl, by simp [handleChatSuccess], rfl, rfl, ?_, ?_, rfl, rfl, ?_⟩
  · intro s hs hne
    simp [chatAssistantMessage, jsStringOr, hs, hne]
  · rintro (h | h) <;> simp [chatAssistantMessage, jsStringOr, h]
  · simp [handleChatSuccess, chatAssistantMessage, jsStringOr, chatFallbackReply]

/-- Witness for claim C6: the assistant message built from reply Hello
has content Hello. -/
theorem chat_success_appends_reply_witness :
    (chatAssistantMessage
      { reply := some "Hello", sources := none, actions := none }).content = "Hello" :=
  (chat_success_appends_reply sampleState
    { reply := some "Hello", sources := none, actions := none }).2.2.2.2.1
    "Hello" rfl (by decide)

/-- Claim C7: a chat request that fails at the transport level appends
exactly one assistant message with the fixed connection-error string
and returns the busy flag to false; an error response whose decoded
body has no reply field goes through the same completion path and
appends the fixed fallback string; every completion appends exactly one
message and ends Idle, and no exception escapes (the completion is a
total function). -/
theorem chat_failure_appends_error (st : ChatState) :
    (sendMessageComplete st ChatOutcome.networkError).messages =
      st.messages ++ [{ role := "assistant", content := chatNetworkErrorMessage }] ∧
    (sendMessageComplete st ChatOutcome.networkError).loading = false ∧
    (∀ status data, data.reply = none →
      (sendMessageComplete st (ChatOutcome.response status data)).messages =
        st.messages ++ [{ role := "assistant", content := chatFallbackReply,
                          sources := some (data.sources.getD []),
                          actions := some (data.actions.getD []) }] ∧
      (sendMessageComplete st (ChatOutcome.response status data)).loading = false) ∧
    (∀ outcome, (sendMessageComplete st outcome).messages.length =
        st.messages.length + 1 ∧
      (sendMessageComplete st outcome).loading = false) := by
  refine ⟨rfl, rfl, ?_, ?_⟩
  · intro status data h
    refine ⟨?_, rfl⟩
    simp [sendMessageComplete, handleChatSuccess, chatAssistantMessage, jsStringOr, h]
  · intro outcome
    cases outcome with
    | response status data =>
      exact ⟨by simp [sendMessageComplete, handleChatSuccess], rfl⟩
    | networkError =>
      exact ⟨by simp [sendMessageComplete, handleChatFailure], rfl⟩

/-- Witness for claim C7: completing with a 500 response whose body has
no reply returns the orchestrator to Idle. -/
theorem chat_failure_appends_error_witness :
    (sendMessageComplete sampleState
      (ChatOutcome.response 500
        { reply := none, sources := none, actions := none })).loading = false :=
  ((chat_failure_appends_error sampleState).2.2.1 500
    { reply := none, sources := none, actions := none } rfl).2

/-- Claim C8: submitting text whose trimmed form is empty leaves the
whole state unchanged and issues no request; for non-empty trimmed text
the user message is appended, the input cleared, the busy flag set, and
the issued chat request carries the full transcript including the
just-appended user message. -/
theorem sendMessage_requires_nonempty_text (st : ChatState) (text : String) :
    (jsTrim text = "" → sendMessageStart st text = (st, none)) ∧
    (jsTrim text ≠ "" →
      (sendMessageStart st text).1.messages =
        st.messages ++ [{ role := "user", content := text }] ∧
      (sendMessageStart st text).1.input = "" ∧
      (sendMessageStart st text).1.loading = true ∧
      (sendMessageStart st text).2 =
        some (ApiRequest.chat ((sendMessageStart st text).1.messages))) := by
  constructor
  · intro h; simp [sendMessageStart, h]
  · intro h; simp [sendMessageStart, h]

/-- Witness for claim C8: a blank submission in the sample state is a
no-op, and submitting the text hi issues a request carrying the updated
transcript. -/
theorem sendMessage_requires_nonempty_text_witness :
    sendMessageStart sampleState " " = (sampleState, none) ∧
    (sendMessageStart sampleState "hi").2 =
      some (ApiRequest.chat ((sendMessageStart sampleState "hi").1.messages)) :=
  ⟨(sendMessage_requires_nonempty_text sampleState " ").1 (by decide),
   ((sendMessage_requires_nonempty_text sampleState "hi").2 (by decide)).2.2.2⟩

/-- Claim C9: the fee views classify a status as paid in full exactly
when the due amount is 0 (FeesPage also accepts the status label Paid),
otherwise the displayed outstanding balance equals the due amount; the
scenario inputs classify as paid in full (due 0) and as an outstanding
balance of 400 (due 400). -/
theorem fee_paid_classification (fees : FeeStatus) :
    (feesPageIsPaid fees = true ↔ (fees.due = 0 ∨ fees.status = "Paid")) ∧
    (profileFeePaidInFull fees = true ↔ fees.due = 0) ∧
    displayedOutstanding fees = fees.due ∧
    feesPageIsPaid { total := 1000, paid := 1000, due := 0, status := "Paid" } = true ∧
    profileFeePaidInFull { total := 1000, paid := 1000, due := 0, status := "Paid" } = true ∧
    feesPageIsPaid { total := 1000, paid := 600, due := 400, status := "Pending" } = false ∧
    profileFeePaidInFull { total := 1000, paid := 600, due := 400, status := "Pending" } = false ∧
    displayedOutstanding { total := 1000, paid := 600, due := 400, status := "Pending" } = 400 := by
  refine ⟨?_, ?_, ?_, by decide, by decide, by decide, by decide, by decide⟩
  · simp [feesPageIsPaid]
  · simp [profileFeePaidInFull]
  · by_cases h : fees.due = 0 <;> simp [displayedOutstanding, jsOrZero, h]

/-- Claim C10: the dashboard and profile views display the unweighted
arithmetic mean of the per-course percentages (0 for an empty or absent
list), which on the scenario input is 62.5 and differs from the
aggregated overall percentage 66.7. -/
theorem avgAttendance_unweighted_mean (records : List AttendanceRecord)
    (h : records ≠ []) :
    avgAttendance (some records) =
      (records.map (fun r => r.percentage)).sum / (records.length : ℚ) ∧
    avgAttendance none = 0 ∧
    avgAttendance (some []) = 0 ∧
    avgAttendance (some [sampleRecordC1, sampleRecordC2]) ≠
      (aggregateAttendance [sampleRecordC1, sampleRecordC2]).overallPercentage := by
  refine ⟨?_, rfl, rfl, ?_⟩
  · have hlen : 0 < records.length := List.length_pos.mpr h
    simp [avgAttendance, hlen, foldl_add_map_sum]
  · rw [avgAttendance_sample, aggregateAttendance_sample]
    norm_num

/-- Witness for claim C10: the singleton sample list is non-empty and
its displayed average is the mean of its percentages. -/
theorem avgAttendance_unweighted_mean_witness :
    ([sampleRecordC1] : List AttendanceRecord) ≠ [] ∧
    avgAttendance (some [sampleRecordC1]) =
      ([sampleRecordC1].map (fun r => r.percentage)).sum /
        (([sampleRecordC1] : List AttendanceRecord).length : ℚ) :=
  ⟨by decide, (avgAttendance_unweighted_mean [sampleRecordC1] (by decide)).1⟩

end ChatApp
